import Mathlib

/-
Verification development for the SAA bulk scan downloader
(source: src/saa-downloader.py).

The embedding below translates the three core components of the script:
  * makeFilenames  (the identifier sequencer),
  * downloadScan   (the per-identifier fetch state machine), and
  * fetchScans     (the batch entry point gathering one downloadScan per name)
into executable Lean definitions.  Network and XML parsing are external
capabilities in the source (requests.get, lxml etree); they are modelled by
an oracle structure Env supplying the descriptor body returned for the j-th
descriptor request of an identifier and the URL extracted from a Ready body.
The filesystem is a list of existing paths (directories and files alike);
console printing is not modelled.  The unbounded recursive retry of
downloadScan is made total with a fuel parameter: an exhausted fuel yields
the outcome none (the run did not terminate within the given fuel), together
with the filesystem and event trace accumulated so far.
-/

namespace SaaDownloader

/-- Longest common leading character sequence of two strings, modelling
os.path.commonprefix applied to a two-element list. -/
def commonPfx : List Char → List Char → List Char
  | a :: as, b :: bs => if a = b then a :: commonPfx as bs else []
  | _, _ => []

/-- Does pat occur at the head of s?  (Python str.startswith on char lists.) -/
def startsWithCh : List Char → List Char → Bool
  | [], _ => true
  | _ :: _, [] => false
  | p :: ps, c :: cs => if p = c then startsWithCh ps cs else false

/-- Does pat occur anywhere inside s?  (Python's `in` operator on strings.) -/
def hasInfixCh : List Char → List Char → Bool
  | pat, [] => pat.isEmpty
  | pat, c :: cs => startsWithCh pat (c :: cs) || hasInfixCh pat cs

/-- Substring test on strings: models Python's `needle in haystack`. -/
def strContains (haystack needle : String) : Bool :=
  hasInfixCh needle.data haystack.data

/-- Characters of s before the first occurrence of the separator sep
(all of s when sep does not occur).  For a nonempty sep that is a leading
prefix of a string t, Python's t.split(sep)[1] is exactly
takeUntilSep sep (t minus the leading sep): the chunk between the first
occurrence of the separator and the next one. -/
def takeUntilSep (sep : List Char) : List Char → List Char
  | [] => []
  | c :: cs => if startsWithCh sep (c :: cs) = true then [] else c :: takeUntilSep sep cs

/-- Numeric value of a decimal digit sequence. -/
def digitsVal (s : List Char) : Nat :=
  s.foldl (fun acc c => acc * 10 + (c.toNat - 48)) 0

/-- Python int() restricted to plain decimal digit strings (the shape that
occurs in this program): none models the ValueError raised on an empty or
non-numeric argument, and leading zeros are tolerated exactly as int() is. -/
def pyIntCh (s : List Char) : Option Nat :=
  if s ≠ [] ∧ s.all (fun c => c.isDigit) then some (digitsVal s) else none

/-- Python str.zfill for digit strings: left-pad with zeros up to width w. -/
def zfillCh (w : Nat) (s : List Char) : List Char :=
  List.replicate (w - s.length) '0' ++ s

/-- Suffix test on strings (Python str.endswith). -/
def endsWithCh (s post : String) : Bool :=
  startsWithCh post.data.reverse s.data.reverse

/-- Python os.path.join for a relative second component: a separator slash is
inserted unless the first component is empty or already ends with one. -/
def pyJoin (a b : String) : String :=
  if a = "" then b
  else if endsWithCh a "/" = true then a ++ b
  else a ++ "/" ++ b

/-- Sequencer of src/saa-downloader.py (makeFilenames): shared prefix via
os.path.commonprefix, endpoints parsed with int(start.split(prefix)[1]) and
int(end.split(prefix)[1]), pad width len(str(n_end)), and the ascending
range(n_start, n_end + 1) rendered as prefix + str(i).zfill(zpadlength).
none models the exceptions the Python code raises on that path:
str.split with an empty separator (ValueError) and int() on an empty or
non-numeric chunk (ValueError). -/
def makeFilenames (startScan endScan : String) : Option (List String) :=
  let pfx := commonPfx startScan.data endScan.data
  if pfx = [] then none
  else
    match pyIntCh (takeUntilSep pfx (startScan.data.drop pfx.length)),
        pyIntCh (takeUntilSep pfx (endScan.data.drop pfx.length)) with
    | some nStart, some nEnd =>
      some ((List.range' nStart (nEnd + 1 - nStart)).map
        (fun i => String.mk (pfx ++ zfillCh (Nat.repr nEnd).length (Nat.repr i).data)))
    | _, _ => none

/-- Constant BASEURL of the source. -/
def BASEURL : String := "https://archief.amsterdam"

/-- Constant DOWNLOADURL of the source (descriptor requests). -/
def DOWNLOADURL : String := "https://archief.amsterdam/api/download_info/0/"

/-- Constant PREPAREURL of the source (preparation requests). -/
def PREPAREURL : String := "https://archief.amsterdam/api/queue_download/0/"

/-- Terminal outcome of one downloadScan invocation, in the vocabulary of the
specification: Downloaded for the file-writing branch, Skipped for the
early-return existence branch, Unresolvable for the invalid-item branch. -/
inductive Outcome where
  | Downloaded
  | Skipped
  | Unresolvable
deriving DecidableEq

/-- Observable side effects of a downloadScan run, in program order:
HTTP GETs (descriptor, preparation, binary), the asyncio.sleep suspension,
os.makedirs, and the artifact file write. -/
inductive Event where
  | descriptorReq (url : String)
  | prepareReq (url : String)
  | sleep (seconds : Nat)
  | binaryReq (url : String)
  | mkdirEvt (dir : String)
  | writeFile (path : String)
deriving DecidableEq

/-- External-capability oracle: descBody f j is the body of the j-th
descriptor response for identifier f (requests.get(DOWNLOADURL + f + ".xml")
at retry depth j), and extractUrl models the lxml lookup
tree.find("download[@label='highres']").find('part').attrib['url'] applied
to a Ready body. -/
structure Env where
  descBody : String → Nat → String
  extractUrl : String → String

/-- os.makedirs(destination, exist_ok=True) over the path-list filesystem. -/
def makedirs (d : String) (fs : List String) : List String :=
  if d ∈ fs then fs else d :: fs

/-- Fetcher of src/saa-downloader.py (downloadScan), made total by fuel.
Result: (outcome, filesystem, event trace); outcome none means the
recursive preparing cycle did not terminate within the fuel.  The branches
follow the source line by line: the skipIfExist existence check returns
early with no events; otherwise makedirs, the descriptor request, and the
three-way classification of the body — 'unavailable' first (preparation
request, 10-second sleep, recursive retry that omits the skipIfExist
argument, so the retry runs with its default True and the retry depth k+1),
then 'invalid item' (return, nothing written), else the highres binary
fetch and the file write. -/
def downloadScan (env : Env) :
    Nat → String → String → Bool → List String → Nat →
      Option Outcome × List String × List Event
  | 0, _, _, _, fs, _ => (none, fs, [])
  | fuel + 1, filename, destination, skipIfExist, fs, k =>
    if skipIfExist ∧ pyJoin destination (filename ++ ".pdf") ∈ fs then
      (some Outcome.Skipped, fs, [])
    else
      let fs1 := makedirs destination fs
      let data := env.descBody filename k
      if strContains data "unavailable" = true then
        let r := downloadScan env fuel filename destination true fs1 (k + 1)
        (r.1, r.2.1,
          Event.mkdirEvt destination ::
          Event.descriptorReq (DOWNLOADURL ++ filename ++ ".xml") ::
          Event.prepareReq (PREPAREURL ++ filename ++ ".xml") ::
          Event.sleep 10 :: r.2.2)
      else if strContains data "invalid item" = true then
        (some Outcome.Unresolvable, fs1,
          [Event.mkdirEvt destination,
           Event.descriptorReq (DOWNLOADURL ++ filename ++ ".xml")])
      else
        (some Outcome.Downloaded,
          pyJoin destination (filename ++ ".pdf") :: fs1,
          [Event.mkdirEvt destination,
           Event.descriptorReq (DOWNLOADURL ++ filename ++ ".xml"),
           Event.binaryReq (BASEURL ++ env.extractUrl data),
           Event.writeFile (pyJoin destination (filename ++ ".pdf"))])

/-- asyncio.gather over one downloadScan per filename (each call with the
default skipIfExist=True and a fresh retry depth 0), collected in batch
order.  The only await points of the source are the sleep and the recursive
retry — every requests.get is a synchronous call — so the gather is modelled
as this order-preserving linearization threading the filesystem. -/
def gatherDownloads (env : Env) (fuel : Nat) (destination : String) :
    List String → List String →
      List (Option Outcome) × List String × List Event
  | [], fs => ([], fs, [])
  | f :: rest, fs =>
    let r := downloadScan env fuel f destination true fs 0
    let rs := gatherDownloads env fuel destination rest r.2.1
    (r.1 :: rs.1, rs.2.1, r.2.2 ++ rs.2.2)

/-- Batch entry point of src/saa-downloader.py (fetchScans): expand the
range with makeFilenames, then gather one downloadScan per filename with
the fixed destination.  none propagates a sequencer exception. -/
def fetchScans (env : Env) (fuel : Nat) (startscan endscan destination : String)
    (fs : List String) :
    Option (List (Option Outcome) × List String × List Event) :=
  (makeFilenames startscan endscan).map
    (fun filenames => gatherDownloads env fuel destination filenames fs)

/-- Oracle whose descriptor responses are always Ready. -/
def envReady : Env := ⟨fun _ _ => "ok", fun _ => "/part0.pdf"⟩

/-- Oracle whose descriptor responses always contain 'unavailable'. -/
def envStuck : Env := ⟨fun _ _ => "unavailable", fun _ => "/part0.pdf"⟩

/-- Oracle answering 'invalid item' for identifier b and Ready otherwise. -/
def envMixed : Env :=
  ⟨fun f _ => if f = "b" then "invalid item" else "ok", fun _ => "/part0.pdf"⟩

/-- Oracle whose first descriptor response contains both 'unavailable' and
'invalid item', and whose later responses are Ready. -/
def envBoth : Env :=
  ⟨fun _ j => if j = 0 then "unavailable invalid item" else "ok",
   fun _ => "/part0.pdf"⟩

/-- The artifact path of an identifier is never the destination directory
itself: joining a nonempty member strictly lengthens the path. -/
theorem pyJoin_ne (d b : String) (hb : 0 < b.length) : pyJoin d b ≠ d := by
  unfold pyJoin
  split_ifs with h1 h2
  · intro h
    rw [h1] at h
    rw [h] at hb
    simp at hb
  · intro h
    have := congrArg String.length h
    rw [String.length_append] at this
    omega
  · intro h
    have := congrArg String.length h
    rw [String.length_append, String.length_append] at this
    have h4 : (".pdf" : String).length = 4 := rfl
    have h1' : ("/" : String).length = 1 := rfl
    omega

/-- Artifact-path form of pyJoin_ne. -/
theorem pyJoin_pdf_ne (d f : String) : pyJoin d (f ++ ".pdf") ≠ d := by
  apply pyJoin_ne
  rw [String.length_append]
  have h4 : (".pdf" : String).length = 4 := rfl
  omega

/-- Membership after makedirs: the directory itself, or a preexisting path. -/
theorem mem_makedirs (x d : String) (fs : List String) :
    x ∈ makedirs d fs ↔ x = d ∨ x ∈ fs := by
  unfold makedirs
  split_ifs with h
  · constructor
    · exact Or.inr
    · rintro (rfl | hx)
      · exact h
      · exact hx
  · simp [List.mem_cons]

/-- makedirs never removes paths. -/
theorem subset_makedirs (d : String) (fs : List String) : fs ⊆ makedirs d fs := by
  unfold makedirs
  split_ifs with h
  · exact fun _ hx => hx
  · exact fun x hx => List.mem_cons_of_mem _ hx

/-- makedirs is idempotent (exist_ok=True). -/
theorem makedirs_idem (d : String) (fs : List String) :
    makedirs d (makedirs d fs) = makedirs d fs := by
  have hd : d ∈ makedirs d fs := (mem_makedirs d d fs).mpr (Or.inl rfl)
  show (if d ∈ makedirs d fs then makedirs d fs else d :: makedirs d fs) = makedirs d fs
  rw [if_pos hd]

/-- downloadScan only ever adds paths to the filesystem. -/
theorem downloadScan_fs_mono (env : Env) :
    ∀ (fuel : Nat) (f d : String) (sk : Bool) (fs : List String) (k : Nat),
      fs ⊆ (downloadScan env fuel f d sk fs k).2.1 := by
  intro fuel
  induction fuel with
  | zero =>
    intro f d sk fs k
    exact fun _ hx => hx
  | succ n ih =>
    intro f d sk fs k
    simp only [downloadScan]
    split_ifs with h1 h2 h3
    · exact fun _ hx => hx
    · exact fun x hx => ih f d true (makedirs d fs) (k + 1) (subset_makedirs d fs hx)
    · exact subset_makedirs d fs
    · exact fun x hx => List.mem_cons_of_mem _ (subset_makedirs d fs hx)

/-- A run that ends Downloaded leaves the artifact file on the filesystem. -/
theorem downloaded_mem (env : Env) :
    ∀ (fuel : Nat) (f d : String) (sk : Bool) (fs : List String) (k : Nat),
      (downloadScan env fuel f d sk fs k).1 = some Outcome.Downloaded →
      pyJoin d (f ++ ".pdf") ∈ (downloadScan env fuel f d sk fs k).2.1 := by
  intro fuel
  induction fuel with
  | zero =>
    intro f d sk fs k h
    exact Option.noConfusion h
  | succ n ih =>
    intro f d sk fs k
    simp only [downloadScan]
    split_ifs with h1 h2 h3
    · intro h
      exact Outcome.noConfusion (Option.some.inj h)
    · exact ih f d true (makedirs d fs) (k + 1)
    · intro h
      exact Outcome.noConfusion (Option.some.inj h)
    · intro _
      exact List.mem_cons_self _ _

/-- commonPfx distributes over a shared leading segment. -/
theorem commonPfx_append (p : List Char) :
    ∀ a b, commonPfx (p ++ a) (p ++ b) = p ++ commonPfx a b := by
  induction p with
  | nil => intro a b; rfl
  | cons c cs ih =>
    intro a b
    simp [commonPfx, ih]

/-- commonPfx of a list with itself is the list. -/
theorem commonPfx_self : ∀ l : List Char, commonPfx l l = l := by
  intro l
  induction l with
  | nil => rfl
  | cons c cs ih => simp [commonPfx, ih]

/-- When a nonempty separator does not occur inside s, the chunk before its
first occurrence is all of s. -/
theorem takeUntilSep_eq_self (pat : List Char) :
    ∀ s, hasInfixCh pat s = false → takeUntilSep pat s = s := by
  intro s
  induction s with
  | nil => intro _; rfl
  | cons c cs ih =>
    intro h
    rw [hasInfixCh, Bool.or_eq_false_iff] at h
    rw [takeUntilSep, if_neg (by rw [h.1]; exact Bool.false_ne_true), ih h.2]

/-- Normal-path characterization of the sequencer: when start and end
decompose as a shared nonempty prefix followed by nonempty all-digit
remainders whose first characters differ (so the prefix is the longest
common one) and the prefix does not reoccur inside either remainder, the
expansion is the ascending range of numeric values rendered with the pad
width taken from the printed value of the end remainder. -/
theorem makeFilenames_decomp (s e : String) (pfx a b : List Char)
    (hs : s.data = pfx ++ a) (he : e.data = pfx ++ b)
    (hpfx : pfx ≠ []) (hab : commonPfx a b = [])
    (hinfa : hasInfixCh pfx a = false) (hinfb : hasInfixCh pfx b = false)
    (ha : a ≠ []) (hb : b ≠ [])
    (hda : a.all (fun c => c.isDigit) = true)
    (hdb : b.all (fun c => c.isDigit) = true) :
    makeFilenames s e =
      some ((List.range' (digitsVal a) (digitsVal b + 1 - digitsVal a)).map
        (fun i =>
          String.mk (pfx ++ zfillCh (Nat.repr (digitsVal b)).length (Nat.repr i).data))) := by
  simp only [makeFilenames]
  rw [hs, he, commonPfx_append, hab, List.append_nil, if_neg hpfx,
    List.drop_left, List.drop_left,
    takeUntilSep_eq_self pfx a hinfa, takeUntilSep_eq_self pfx b hinfb]
  simp only [pyIntCh]
  rw [if_pos ⟨ha, hda⟩, if_pos ⟨hb, hdb⟩]

/-- When every descriptor response for an identifier contains 'unavailable'
and the artifact file is absent, downloadScan never terminates (outcome
none for every fuel) and its trace contains no binary fetch. -/
theorem unavailable_loop (env : Env) (f d : String)
    (hall : ∀ j, strContains (env.descBody f j) "unavailable" = true) :
    ∀ (fuel : Nat) (fs : List String) (k : Nat) (sk : Bool),
      pyJoin d (f ++ ".pdf") ∉ fs →
      (downloadScan env fuel f d sk fs k).1 = none ∧
      ∀ u, Event.binaryReq u ∉ (downloadScan env fuel f d sk fs k).2.2 := by
  intro fuel
  induction fuel with
  | zero =>
    intro fs k sk _
    exact ⟨rfl, by intro u; simp [downloadScan]⟩
  | succ n ih =>
    intro fs k sk hnf
    have hcond : ¬(sk = true ∧ pyJoin d (f ++ ".pdf") ∈ fs) := fun hc => hnf hc.2
    have hnf1 : pyJoin d (f ++ ".pdf") ∉ makedirs d fs := by
      rw [mem_makedirs]
      rintro (h | h)
      · exact pyJoin_pdf_ne d f h
      · exact hnf h
    obtain ⟨h1, h2⟩ := ih (makedirs d fs) (k + 1) true hnf1
    simp only [downloadScan]
    rw [if_neg hcond, if_pos (hall k)]
    refine ⟨h1, ?_⟩
    intro u
    simp only [List.mem_cons]
    rintro (h | h | h | h | h)
    · exact Event.noConfusion h
    · exact Event.noConfusion h
    · exact Event.noConfusion h
    · exact Event.noConfusion h
    · exact h2 u h

/-- One unfolding step of downloadScan in the Preparing branch: no skip, an
'unavailable' body, hence the preparation request and the 10-second sleep
followed by the recursive retry at depth k+1 with skipIfExist back to its
default true. -/
theorem downloadScan_unavailable_step (env : Env) (f d : String) (fs : List String)
    (k fuel : Nat) (sk : Bool)
    (hcond : ¬(sk = true ∧ pyJoin d (f ++ ".pdf") ∈ fs))
    (hun : strContains (env.descBody f k) "unavailable" = true) :
    downloadScan env (fuel + 1) f d sk fs k =
      ((downloadScan env fuel f d true (makedirs d fs) (k + 1)).1,
       (downloadScan env fuel f d true (makedirs d fs) (k + 1)).2.1,
       Event.mkdirEvt d ::
       Event.descriptorReq (DOWNLOADURL ++ f ++ ".xml") ::
       Event.prepareReq (PREPAREURL ++ f ++ ".xml") ::
       Event.sleep 10 ::
       (downloadScan env fuel f d true (makedirs d fs) (k + 1)).2.2) := by
  simp only [downloadScan]
  rw [if_neg hcond, if_pos hun]

/-- Claim C1: after a fetch with skipIfExists=true has fully completed with
outcome Downloaded, any subsequent sequential fetch for the same identifier
and destination with skipIfExists=true returns Skipped immediately, leaves
the filesystem unchanged, and issues zero network calls (its event trace is
empty) — for any oracle, remaining fuel and retry depth of the second call. -/
theorem claim1_skip_idempotent (env env2 : Env) (f d : String) (fs : List String)
    (k k2 fuel fl : Nat)
    (h : (downloadScan env fuel f d true fs k).1 = some Outcome.Downloaded) :
    downloadScan env2 (fl + 1) f d true
        ((downloadScan env fuel f d true fs k).2.1) k2 =
      (some Outcome.Skipped, (downloadScan env fuel f d true fs k).2.1, []) := by
  have hmem := downloaded_mem env fuel f d true fs k h
  simp only [downloadScan]
  rw [if_pos ⟨trivial, hmem⟩]

/-- Witness for claim C1 at a concrete run: one Downloaded call with the
always-Ready oracle, then the second call skips with an empty trace. -/
theorem claim1_witness :
    (downloadScan envReady 1 "f" "dl" true [] 0).1 = some Outcome.Downloaded ∧
    downloadScan envReady 1 "f" "dl" true
        ((downloadScan envReady 1 "f" "dl" true [] 0).2.1) 0 =
      (some Outcome.Skipped, (downloadScan envReady 1 "f" "dl" true [] 0).2.1, []) :=
  ⟨by decide, claim1_skip_idempotent envReady envReady "f" "dl" [] 0 0 1 0 (by decide)⟩

/-- Claim C2: a descriptor response containing 'unavailable' (with the
artifact absent) makes the fetcher issue the preparation request and the
10-second suspension right after the descriptor request and before anything
else — in particular before any binary fetch — and re-enter the protocol at
the descriptor request for the same identifier after the delay; and when
every response keeps containing 'unavailable', the cycle repeats without a
retry limit: for every fuel the run fails to terminate and no binary fetch
ever appears in the trace. -/
theorem claim2_preparing_cycle (env : Env) (f d : String) (fs : List String)
    (k fuel : Nat) (sk : Bool)
    (hun : strContains (env.descBody f k) "unavailable" = true)
    (hnf : pyJoin d (f ++ ".pdf") ∉ fs) :
    (∃ rest, (downloadScan env (fuel + 2) f d sk fs k).2.2 =
        Event.mkdirEvt d ::
        Event.descriptorReq (DOWNLOADURL ++ f ++ ".xml") ::
        Event.prepareReq (PREPAREURL ++ f ++ ".xml") ::
        Event.sleep 10 ::
        Event.mkdirEvt d ::
        Event.descriptorReq (DOWNLOADURL ++ f ++ ".xml") :: rest) ∧
    ((∀ j, strContains (env.descBody f j) "unavailable" = true) →
      ∀ fl, (downloadScan env fl f d sk fs k).1 = none ∧
        ∀ u, Event.binaryReq u ∉ (downloadScan env fl f d sk fs k).2.2) := by
  have hcond : ¬(sk = true ∧ pyJoin d (f ++ ".pdf") ∈ fs) := fun hc => hnf hc.2
  have hnf1 : pyJoin d (f ++ ".pdf") ∉ makedirs d fs := by
    rw [mem_makedirs]
    rintro (h | h)
    · exact pyJoin_pdf_ne d f h
    · exact hnf h
  have hcond1 : ¬(True ∧ pyJoin d (f ++ ".pdf") ∈ makedirs d fs) :=
    fun hc => hnf1 hc.2
  constructor
  · have hstep : ∃ rest,
        (downloadScan env (fuel + 1) f d true (makedirs d fs) (k + 1)).2.2 =
          Event.mkdirEvt d ::
          Event.descriptorReq (DOWNLOADURL ++ f ++ ".xml") :: rest := by
      simp only [downloadScan]
      rw [if_neg hcond1]
      by_cases h2 : strContains (env.descBody f (k + 1)) "unavailable" = true
      · rw [if_pos h2]
        exact ⟨_, rfl⟩
      · rw [if_neg h2]
        by_cases h3 : strContains (env.descBody f (k + 1)) "invalid item" = true
        · rw [if_pos h3]
          exact ⟨[], rfl⟩
        · rw [if_neg h3]
          exact ⟨_, rfl⟩
    obtain ⟨rest, hrest⟩ := hstep
    refine ⟨rest, ?_⟩
    rw [downloadScan_unavailable_step env f d fs k (fuel + 1) sk hcond hun]
    dsimp only
    rw [hrest]
  · intro hall fl
    exact unavailable_loop env f d hall fl fs k sk hnf

/-- Witness for claim C2 with the always-unavailable oracle on an empty
filesystem. -/
theorem claim2_witness :
    strContains (envStuck.descBody "f" 0) "unavailable" = true ∧
    ((∃ rest, (downloadScan envStuck (0 + 2) "f" "dl" true [] 0).2.2 =
        Event.mkdirEvt "dl" ::
        Event.descriptorReq (DOWNLOADURL ++ "f" ++ ".xml") ::
        Event.prepareReq (PREPAREURL ++ "f" ++ ".xml") ::
        Event.sleep 10 ::
        Event.mkdirEvt "dl" ::
        Event.descriptorReq (DOWNLOADURL ++ "f" ++ ".xml") :: rest) ∧
    ((∀ j, strContains (envStuck.descBody "f" j) "unavailable" = true) →
      ∀ fl, (downloadScan envStuck fl "f" "dl" true [] 0).1 = none ∧
        ∀ u, Event.binaryReq u ∉ (downloadScan envStuck fl "f" "dl" true [] 0).2.2)) :=
  ⟨by decide,
   claim2_preparing_cycle envStuck "f" "dl" [] 0 0 true (by decide) (by decide)⟩

/-- Claim C3: the batch entry composes the sequencer's expansion with a
fixed destination per target before delegating to the gathered per-target
fetches; the batch returns one outcome slot per target (no target is
dropped or short-circuited by another's failure); and the 3-target batch in
which one target resolves to 'invalid item' and two resolve Ready completes
with exactly [Unresolvable, Downloaded, Downloaded] collected. -/
theorem claim3_batch (env : Env) (fuel : Nat) (s e d : String) (fs : List String)
    (names : List String) (h : makeFilenames s e = some names) :
    fetchScans env fuel s e d fs = some (gatherDownloads env fuel d names fs) ∧
    (∀ (env2 : Env) (fuel2 : Nat) (d2 : String) (targets fs2 : List String),
      (gatherDownloads env2 fuel2 d2 targets fs2).1.length = targets.length) ∧
    (gatherDownloads envMixed 1 "dl" ["b", "x", "y"] []).1 =
      [some Outcome.Unresolvable, some Outcome.Downloaded, some Outcome.Downloaded] := by
  refine ⟨by simp [fetchScans, h], ?_, by decide⟩
  intro env2 fuel2 d2 targets
  induction targets with
  | nil => intro fs2; rfl
  | cons a rest ih =>
    intro fs2
    simp only [gatherDownloads, List.length_cons]
    rw [ih]

/-- Witness for claim C3 on the concrete range B1..B2. -/
theorem claim3_witness :
    makeFilenames "B1" "B2" = some ["B1", "B2"] ∧
    (fetchScans envReady 1 "B1" "B2" "dl" [] =
      some (gatherDownloads envReady 1 "dl" ["B1", "B2"] []) ∧
    (∀ (env2 : Env) (fuel2 : Nat) (d2 : String) (targets fs2 : List String),
      (gatherDownloads env2 fuel2 d2 targets fs2).1.length = targets.length) ∧
    (gatherDownloads envMixed 1 "dl" ["b", "x", "y"] []).1 =
      [some Outcome.Unresolvable, some Outcome.Downloaded, some Outcome.Downloaded]) :=
  ⟨by decide, claim3_batch envReady 1 "B1" "B2" "dl" [] ["B1", "B2"] (by decide)⟩

/-- Claim C4 counterexample: start 11 and end 12 share the common prefix 1
with numeric remainders 1 and 2 and end >= start, yet the sequencer
produces no sequence at all — Python splits the start on every occurrence
of the prefix, so int('11'.split('1')[1]) is int('') and raises ValueError
— instead of emitting the two claimed identifiers. -/
theorem claim4_cex :
    commonPfx "11".data "12".data = ['1'] ∧ makeFilenames "11" "12" = none := by
  decide

/-- Claim C4 (amended): the nominal expansion additionally requires that the
longest common prefix does not reoccur inside either endpoint's remainder
(Python's split is occurrence-based); with that proviso the sequencer emits,
for each i from start's numeric value to end's inclusive and ascending, the
prefix followed by i zero-padded to the printed width of end's numeric
value — and the cited instance KLAC00161000001..KLAC00161000003 expands to
exactly the three claimed identifiers. -/
theorem claim4_expansion (s e : String) (pfx a b : List Char)
    (hs : s.data = pfx ++ a) (he : e.data = pfx ++ b)
    (hpfx : pfx ≠ []) (hab : commonPfx a b = [])
    (hinfa : hasInfixCh pfx a = false) (hinfb : hasInfixCh pfx b = false)
    (ha : a ≠ []) (hb : b ≠ [])
    (hda : a.all (fun c => c.isDigit) = true)
    (hdb : b.all (fun c => c.isDigit) = true)
    (hle : digitsVal a ≤ digitsVal b) :
    makeFilenames s e =
      some ((List.range' (digitsVal a) (digitsVal b + 1 - digitsVal a)).map
        (fun i =>
          String.mk (pfx ++ zfillCh (Nat.repr (digitsVal b)).length (Nat.repr i).data))) ∧
    makeFilenames "KLAC00161000001" "KLAC00161000003" =
      some ["KLAC00161000001", "KLAC00161000002", "KLAC00161000003"] :=
  ⟨makeFilenames_decomp s e pfx a b hs he hpfx hab hinfa hinfb ha hb hda hdb,
   by decide⟩

/-- Witness for claim C4 on the range B2..B13 (prefix B, remainders 2 and
13, values 2 <= 13). -/
theorem claim4_witness :
    digitsVal ['2'] ≤ digitsVal ['1', '3'] ∧
    (makeFilenames "B2" "B13" =
      some ((List.range' (digitsVal ['2'])
          (digitsVal ['1', '3'] + 1 - digitsVal ['2'])).map
        (fun i =>
          String.mk (['B'] ++
            zfillCh (Nat.repr (digitsVal ['1', '3'])).length (Nat.repr i).data))) ∧
    makeFilenames "KLAC00161000001" "KLAC00161000003" =
      some ["KLAC00161000001", "KLAC00161000002", "KLAC00161000003"]) :=
  ⟨by decide,
   claim4_expansion "B2" "B13" ['B'] ['2'] ['1', '3'] (by decide) (by decide)
     (by decide) (by decide) (by decide) (by decide) (by decide) (by decide)
     (by decide) (by decide) (by decide)⟩

/-- Claim C5 counterexample: a first descriptor body containing both
'unavailable' and 'invalid item' does not terminate with Unresolvable —
the 'unavailable' check runs first, so the fetch enters the Preparing
cycle and, once the next response is Ready, ends Downloaded having issued
a binary fetch; this refutes the unconditional reading that any body
containing 'invalid item' yields Unresolvable with zero binary fetches. -/
theorem claim5_cex :
    strContains (envBoth.descBody "f" 0) "invalid item" = true ∧
    (downloadScan envBoth 2 "f" "dl" true [] 0).1 = some Outcome.Downloaded ∧
    Event.binaryReq (BASEURL ++ "/part0.pdf") ∈
      (downloadScan envBoth 2 "f" "dl" true [] 0).2.2 := by
  decide

/-- Claim C5 (amended): a fetch that reaches the descriptor step and whose
response body contains 'invalid item' but not 'unavailable' terminates
immediately with Unresolvable, issues no preparation request and no binary
fetch (its whole trace is makedirs plus the one descriptor request), and
writes no file: the only filesystem change is the destination directory,
and an absent artifact stays absent. -/
theorem claim5_invalid_item (env : Env) (f d : String) (fs : List String)
    (k fuel : Nat) (sk : Bool)
    (hinv : strContains (env.descBody f k) "invalid item" = true)
    (hun : strContains (env.descBody f k) "unavailable" = false)
    (hns : ¬(sk = true ∧ pyJoin d (f ++ ".pdf") ∈ fs)) :
    downloadScan env (fuel + 1) f d sk fs k =
      (some Outcome.Unresolvable, makedirs d fs,
       [Event.mkdirEvt d, Event.descriptorReq (DOWNLOADURL ++ f ++ ".xml")]) ∧
    (pyJoin d (f ++ ".pdf") ∉ fs →
      pyJoin d (f ++ ".pdf") ∉ (downloadScan env (fuel + 1) f d sk fs k).2.1) := by
  have heq : downloadScan env (fuel + 1) f d sk fs k =
      (some Outcome.Unresolvable, makedirs d fs,
       [Event.mkdirEvt d, Event.descriptorReq (DOWNLOADURL ++ f ++ ".xml")]) := by
    simp only [downloadScan]
    rw [if_neg hns, if_neg (by simp [hun]), if_pos hinv]
  refine ⟨heq, ?_⟩
  intro hnf
  rw [heq]
  dsimp only
  rw [mem_makedirs]
  rintro (h | h)
  · exact pyJoin_pdf_ne d f h
  · exact hnf h

/-- Witness for claim C5: identifier b of the mixed oracle answers
'invalid item' on an empty filesystem. -/
theorem claim5_witness :
    strContains (envMixed.descBody "b" 0) "invalid item" = true ∧
    strContains (envMixed.descBody "b" 0) "unavailable" = false ∧
    (downloadScan envMixed (0 + 1) "b" "dl" true [] 0 =
      (some Outcome.Unresolvable, makedirs "dl" [],
       [Event.mkdirEvt "dl", Event.descriptorReq (DOWNLOADURL ++ "b" ++ ".xml")]) ∧
    (pyJoin "dl" ("b" ++ ".pdf") ∉ ([] : List String) →
      pyJoin "dl" ("b" ++ ".pdf") ∉
        (downloadScan envMixed (0 + 1) "b" "dl" true [] 0).2.1)) :=
  ⟨by decide, by decide,
   claim5_invalid_item envMixed "b" "dl" [] 0 0 true (by decide) (by decide)
     (by decide)⟩

/-- Claim C6 counterexample: expand("A1","A12") does not return
["A01",...,"A12"] — os.path.commonprefix("A1","A12") is "A1", which leaves
the start remainder empty, so int('') raises ValueError and the sequencer
produces nothing. -/
theorem claim6_cex :
    makeFilenames "A1" "A12" ≠
      some ["A01", "A02", "A03", "A04", "A05", "A06", "A07", "A08", "A09",
            "A10", "A11", "A12"] := by
  decide

/-- Claim C6 (amended): the zero-pad width is the printed digit count of
end's parsed numeric value len(str(n_end)) — derived from the end endpoint,
not the start — so expand("A2","A10") pads to width 2 while
expand("A1","A09") pads to width 1 (the leading zero of the end remainder
is lost by int()); and the spec's own example expand("A1","A12") raises
instead, since the common prefix "A1" leaves an empty start remainder. -/
theorem claim6_padding :
    makeFilenames "A2" "A10" =
      some ["A02", "A03", "A04", "A05", "A06", "A07", "A08", "A09", "A10"] ∧
    makeFilenames "A1" "A09" =
      some ["A1", "A2", "A3", "A4", "A5", "A6", "A7", "A8", "A9"] ∧
    makeFilenames "A1" "A12" = none := by
  decide

/-- Claim C7: for every identifier x the degenerate range expand(x, x)
raises rather than returning [x] — the common prefix is all of x, so the
parsed remainder is int('') (ValueError), and for empty x the split
separator itself is empty (ValueError). -/
theorem claim7_selfrange (x : String) : makeFilenames x x = none := by
  simp only [makeFilenames]
  rw [commonPfx_self x.data]
  by_cases hx : x.data = []
  · rw [if_pos hx]
  · rw [if_neg hx, List.drop_length]
    rfl

/-- Claim C8 counterexample: the reversed range A2..A1 does not fail — the
sequencer returns the perfectly normal empty sequence (Python's range is
empty when end < start). -/
theorem claim8_cex : makeFilenames "A2" "A1" = some [] := by
  decide

/-- Claim C8 (amended): for a reversed range (end's numeric value below
start's, both remainders parsing) the sequencer returns the empty sequence
without error, and the batch call then performs no network activity at all:
it returns an empty outcome list, an unchanged filesystem and an empty
event trace. -/
theorem claim8_reversed (env : Env) (fuel : Nat) (d : String) (fs : List String)
    (s e : String) (pfx a b : List Char)
    (hs : s.data = pfx ++ a) (he : e.data = pfx ++ b)
    (hpfx : pfx ≠ []) (hab : commonPfx a b = [])
    (hinfa : hasInfixCh pfx a = false) (hinfb : hasInfixCh pfx b = false)
    (ha : a ≠ []) (hb : b ≠ [])
    (hda : a.all (fun c => c.isDigit) = true)
    (hdb : b.all (fun c => c.isDigit) = true)
    (hlt : digitsVal b < digitsVal a) :
    makeFilenames s e = some [] ∧
    fetchScans env fuel s e d fs = some ([], fs, []) := by
  have h := makeFilenames_decomp s e pfx a b hs he hpfx hab hinfa hinfb ha hb hda hdb
  have hz : digitsVal b + 1 - digitsVal a = 0 := by omega
  rw [hz] at h
  have hemp : makeFilenames s e = some [] := by
    rw [h]
    rfl
  exact ⟨hemp, by simp [fetchScans, hemp, gatherDownloads]⟩

/-- Witness for claim C8 on the reversed range A2..A1. -/
theorem claim8_witness :
    digitsVal ['1'] < digitsVal ['2'] ∧
    (makeFilenames "A2" "A1" = some [] ∧
     fetchScans envReady 1 "A2" "A1" "dl" [] = some ([], [], [])) :=
  ⟨by decide,
   claim8_reversed envReady 1 "dl" [] "A2" "A1" ['A'] ['2'] ['1'] (by decide)
     (by decide) (by decide) (by decide) (by decide) (by decide) (by decide)
     (by decide) (by decide) (by decide) (by decide)⟩

/-- Claim C9: a fetch call that does not return Skipped creates the
destination directory before issuing the descriptor request — the directory
is in the resulting filesystem whatever the outcome (Unresolvable,
Downloaded, or a preparing loop that exhausts the fuel), the trace starts
with the makedirs effect followed by the descriptor request, and the
creation is idempotent. -/
theorem claim9_dir_created (env : Env) (f d : String) (sk : Bool)
    (fs : List String) (k fuel : Nat)
    (h : (downloadScan env (fuel + 1) f d sk fs k).1 ≠ some Outcome.Skipped) :
    d ∈ (downloadScan env (fuel + 1) f d sk fs k).2.1 ∧
    (∃ rest, (downloadScan env (fuel + 1) f d sk fs k).2.2 =
        Event.mkdirEvt d :: Event.descriptorReq (DOWNLOADURL ++ f ++ ".xml") :: rest) ∧
    makedirs d (makedirs d fs) = makedirs d fs := by
  by_cases hcond : sk = true ∧ pyJoin d (f ++ ".pdf") ∈ fs
  · have hskip : (downloadScan env (fuel + 1) f d sk fs k).1 = some Outcome.Skipped := by
      simp only [downloadScan]
      rw [if_pos hcond]
    exact absurd hskip h
  · have hd : d ∈ makedirs d fs := (mem_makedirs d d fs).mpr (Or.inl rfl)
    refine ⟨?_, ?_, makedirs_idem d fs⟩
    · simp only [downloadScan]
      rw [if_neg hcond]
      by_cases h2 : strContains (env.descBody f k) "unavailable" = true
      · rw [if_pos h2]
        exact downloadScan_fs_mono env fuel f d true (makedirs d fs) (k + 1) hd
      · rw [if_neg h2]
        by_cases h3 : strContains (env.descBody f k) "invalid item" = true
        · rw [if_pos h3]
          exact hd
        · rw [if_neg h3]
          exact List.mem_cons_of_mem _ hd
    · simp only [downloadScan]
      rw [if_neg hcond]
      by_cases h2 : strContains (env.descBody f k) "unavailable" = true
      · rw [if_pos h2]
        exact ⟨_, rfl⟩
      · rw [if_neg h2]
        by_cases h3 : strContains (env.descBody f k) "invalid item" = true
        · rw [if_pos h3]
          exact ⟨[], rfl⟩
        · rw [if_neg h3]
          exact ⟨_, rfl⟩

/-- Witness for claim C9 on a Downloaded run over an empty filesystem. -/
theorem claim9_witness :
    (downloadScan envReady (0 + 1) "f" "dl" true [] 0).1 ≠ some Outcome.Skipped ∧
    ("dl" ∈ (downloadScan envReady (0 + 1) "f" "dl" true [] 0).2.1 ∧
     (∃ rest, (downloadScan envReady (0 + 1) "f" "dl" true [] 0).2.2 =
        Event.mkdirEvt "dl" ::
        Event.descriptorReq (DOWNLOADURL ++ "f" ++ ".xml") :: rest) ∧
     makedirs "dl" (makedirs "dl" []) = makedirs "dl" []) :=
  ⟨by decide, claim9_dir_created envReady "f" "dl" true [] 0 0 (by decide)⟩

/-- Claim C10: the Preparing retry re-invokes the fetcher without the
skipIfExist argument, so the retry runs with the default skipIfExists=true;
hence a call made with skipIfExists=false on a body containing
'unavailable' returns Skipped when the artifact already exists — its whole
run is the descriptor request, the preparation request and the 10-second
sleep, with no binary fetch and no file write. -/
theorem claim10_retry_resets_skip (env : Env) (f d : String) (fs : List String)
    (k fuel : Nat)
    (hmem : pyJoin d (f ++ ".pdf") ∈ fs)
    (hun : strContains (env.descBody f k) "unavailable" = true) :
    downloadScan env (fuel + 2) f d false fs k =
      (some Outcome.Skipped, makedirs d fs,
       [Event.mkdirEvt d, Event.descriptorReq (DOWNLOADURL ++ f ++ ".xml"),
        Event.prepareReq (PREPAREURL ++ f ++ ".xml"), Event.sleep 10]) := by
  have hcond : ¬((false : Bool) = true ∧ pyJoin d (f ++ ".pdf") ∈ fs) :=
    fun hc => Bool.noConfusion hc.1
  rw [downloadScan_unavailable_step env f d fs k (fuel + 1) false hcond hun]
  have hmem1 : pyJoin d (f ++ ".pdf") ∈ makedirs d fs :=
    (mem_makedirs _ _ _).mpr (Or.inr hmem)
  have hskip : downloadScan env (fuel + 1) f d true (makedirs d fs) (k + 1) =
      (some Outcome.Skipped, makedirs d fs, []) := by
    simp only [downloadScan]
    rw [if_pos ⟨trivial, hmem1⟩]
  rw [hskip]

/-- Witness for claim C10: the artifact is already on disk, the oracle says
'unavailable', and the skipIfExists=false call still ends Skipped after one
preparing cycle. -/
theorem claim10_witness :
    pyJoin "dl" ("f" ++ ".pdf") ∈ ["dl/f.pdf"] ∧
    strContains (envStuck.descBody "f" 0) "unavailable" = true ∧
    downloadScan envStuck (0 + 2) "f" "dl" false ["dl/f.pdf"] 0 =
      (some Outcome.Skipped, makedirs "dl" ["dl/f.pdf"],
       [Event.mkdirEvt "dl", Event.descriptorReq (DOWNLOADURL ++ "f" ++ ".xml"),
        Event.prepareReq (PREPAREURL ++ "f" ++ ".xml"), Event.sleep 10]) :=
  ⟨by decide, by decide,
   claim10_retry_resets_skip envStuck "f" "dl" ["dl/f.pdf"] 0 0 (by decide)
     (by decide)⟩

end SaaDownloader
